import Mathlib

/-!
Verification of the reactive task/contact board core ("Join" repository).

The definitions below are a shallow embedding of the TypeScript sources:
  * `src/app/core/services/task-service.ts`   (TaskService)
  * `src/app/core/services/contact-service.ts` and its sequential-id variant
    (ContactService, `generateNextContactId` / `addContact`)
  * `src/app/main/board/board-view/board-view.ts` (drag-and-drop controller)
  * `src/app/main/contacts/contact-view/contact-view.ts` (two-step delete
    confirmation)
  * `src/app/shared/services/toast.service.ts` and
    `src/app/shared/components/toast/toast.ts` (notification channel)

JavaScript strings are `String`, JS numbers that are used as integers
(timestamps, palette indices, timer handles) are `Nat`, `undefined`/`null`
is `Option`, a rejected `Promise` is `Except`.  Remote Firestore writes are
reified as a list of `RemoteOp` values returned next to the result, so that
"issues exactly one write" is a statement about that list.
-/

namespace Join

/-- A subtask row of a Task document (`Task.subtasks` element in
`src/app/core/interfaces/task.ts`). -/
structure Subtask where
  id : String
  title : String
  completed : Bool
  createdAt : Option Nat
deriving DecidableEq, Repr

/-- The `Task` entity (`src/app/core/interfaces/task.ts`), after the
field-coercion of `buildDocument`: string fields are plain strings,
optional dates stay optional.  `priority` and `status` are kept as raw
strings because `buildDocument` copies whatever string the raw document
holds (it only defaults the missing/empty case). -/
structure Task where
  id : String
  title : String
  description : String
  category : String
  priority : String
  status : String
  assignedContacts : List String
  subtasks : List Subtask
  dueDate : Option Nat
  createdAt : Option Nat
  updatedAt : Option Nat
  color : Option Nat
deriving DecidableEq, Repr

/-- A raw Firestore document for a task, before coercion: every field may be
absent (`undefined`).  `data["x"]` of `DocumentData` is modelled as an
`Option` field. -/
structure RawDoc where
  title : Option String
  description : Option String
  category : Option String
  priority : Option String
  status : Option String
  assignedContacts : Option (List String)
  subtasks : Option (List Subtask)
  dueDate : Option Nat
  createdAt : Option Nat
  updatedAt : Option Nat
  color : Option Nat
deriving DecidableEq, Repr

/-- The raw document with every field absent. -/
def RawDoc.empty : RawDoc :=
  ⟨none, none, none, none, none, none, none, none, none, none, none⟩

/-- JS `x || d` for a possibly-absent string: `undefined`, `null` and the
empty string are falsy, any other string is truthy. -/
def strOr (x : Option String) (d : String) : String :=
  match x with
  | none => d
  | some s => if s = "" then d else s

/-- Embeds `TaskService.buildDocument` (task-service.ts): maps a raw document to a
`Task`, defaulting every optional field.  Arrays are truthy in JS even when
empty, so `data["assignedContacts"] || []` only replaces the absent case. -/
def buildDocument (id : String) (data : RawDoc) : Task :=
  { id := id
    title := strOr data.title ""
    description := strOr data.description ""
    category := strOr data.category "Technical Task"
    priority := strOr data.priority "medium"
    status := strOr data.status "todo"
    assignedContacts := data.assignedContacts.getD []
    subtasks := data.subtasks.getD []
    dueDate := data.dueDate
    createdAt := data.createdAt
    updatedAt := data.updatedAt
    color := data.color }

/-! ### Stage partitioner (`TaskService.createStatusObject`) -/

/-- JS `task.status || "todo"`: the effective stage key of a task (the empty
string is the only falsy string). -/
def effStatus (t : Task) : String :=
  if t.status = "" then "todo" else t.status

/-- The priority rank from the comparator literal
`const priorityOrder = ... urgent 4, high 3, medium 2, low 1 ...`; an unknown
priority is `priorityOrder[p] || 0`, i.e. 0. -/
def rankOf (t : Task) : Nat :=
  if t.priority = "urgent" then 4
  else if t.priority = "high" then 3
  else if t.priority = "medium" then 2
  else if t.priority = "low" then 1
  else 0

/-- The comparator `(a, b) => rank(b) - rank(a)` orders `a` no later than `b`
exactly when `rank b ≤ rank a` (descending rank). -/
def priorityLE (a b : Task) : Prop := rankOf b ≤ rankOf a

instance : DecidableRel priorityLE := fun _ _ => Nat.decLe _ _

/-- One bucket with JS `.sort((a, b) => rank(b) - rank(a))`.
`Array.prototype.sort` is required by ECMAScript to be stable, and for a
consistent comparator its output (sorted w.r.t. the comparator and stable) is
unique, so any stable sort is an exact model; we use `List.insertionSort`,
which Mathlib proves stable. -/
def sortByPriority (l : List Task) : List Task :=
  List.insertionSort priorityLE l

/-- The `tasksObject` field: a JS object used as a dictionary from status keys to task
arrays, modelled as an association list in key-insertion order. -/
abbrev TaskDict := List (String × List Task)

/-- The `Object.keys`-visible keys of the dictionary. -/
def dictKeys (d : TaskDict) : List String := d.map Prod.fst

/-- JS `!this.tasksObject[status]`: whether the key is present (the stored
values are arrays, which are truthy even when empty). -/
def dictHasKey (d : TaskDict) (k : String) : Bool := d.any (fun kv => kv.1 = k)

/-- JS `this.tasksObject[status].push(task)`: append `t` to the bucket stored
under `k` (all buckets under that key; keys are unique in practice). -/
def dictPush (d : TaskDict) (k : String) (t : Task) : TaskDict :=
  d.map (fun kv => if kv.1 = k then (kv.1, kv.2 ++ [t]) else kv)

/-- The bucket stored under key `k` (empty when the key is absent). -/
def bucketOf (d : TaskDict) (k : String) : List Task :=
  (d.lookup k).getD []

/-- The body of the `tasksArr.forEach` loop: default the status, create the
bucket if missing (a fresh key is appended at the end, matching JS object
key-insertion order for non-index string keys), then push. -/
def insertTask (d : TaskDict) (t : Task) : TaskDict :=
  let status := effStatus t
  let d' := if dictHasKey d status then d else d ++ [(status, [])]
  dictPush d' status t

/-- The literal initializer `this.tasksObject = ... todo, in-progress, done
... ` of `createStatusObject`. -/
def initialDict : TaskDict :=
  [("todo", []), ("in-progress", []), ("done", [])]

/-- The final `Object.keys(this.tasksObject).forEach(... sort ...)` pass. -/
def sortBuckets (d : TaskDict) : TaskDict :=
  d.map (fun kv => (kv.1, sortByPriority kv.2))

/-- Embeds `TaskService.createStatusObject` (task-service.ts): partition the task
array into status buckets, then sort each bucket by descending priority
rank. -/
def createStatusObject (tasksArr : List Task) : TaskDict :=
  sortBuckets (tasksArr.foldl insertTask initialDict)

/-- All tasks stored in the dictionary, bucket by bucket. -/
def dictTasks (d : TaskDict) : List Task :=
  (d.map Prod.snd).flatten

/-! ### Sequential id generator -/

/-- Decimal value of a digit sequence (the `parseInt(match[1])` of a `(\d+)`
capture). -/
def digitsToNat (s : List Char) : Nat :=
  s.foldl (fun n c => n * 10 + (c.toNat - 48)) 0

/-- JS `id.match` against the anchored pattern of prefix-then-digits: if `id` is the prefix `pre` followed by one or
more digits, the parsed number, else `none`. -/
def matchSeqNum (pre : String) (id : String) : Option Nat :=
  if pre.toList.isPrefixOf id.toList then
    let digits := id.toList.drop pre.toList.length
    if digits ≠ [] && digits.all Char.isDigit then
      some (digitsToNat digits)
    else none
  else none

/-- JS `String(n).padStart(3, "0")`. -/
def padStart3 (n : Nat) : String :=
  let s := toString n
  if s.toList.length ≥ 3 then s
  else (List.replicate (3 - s.toList.length) '0').asString ++ s

/-- The scanning loop shared by `TaskService.generateNextTaskId` and
`ContactService.generateNextContactId`: `maxNum` starts at 0 and is folded
with `Math.max` over every document id matching `/^PRE-(\d+)$/`. -/
def maxSeqNum (pre : String) (ids : List String) : Nat :=
  ids.foldl
    (fun maxNum id =>
      match matchSeqNum pre id with
      | some n => max maxNum n
      | none => maxNum)
    0

/-- Embeds `TaskService.generateNextTaskId` (task-service.ts), as a function of the
document ids in the `tasks` collection snapshot. -/
def generateNextTaskId (ids : List String) : String :=
  "task-" ++ padStart3 (maxSeqNum "task-" ids + 1)

/-- Embeds `ContactService.generateNextContactId` (sequential-id ContactService
variant), as a function of the ids in the `contacts` snapshot. -/
def generateNextContactId (ids : List String) : String :=
  "contact-" ++ padStart3 (maxSeqNum "contact-" ids + 1)

/-! ### Toast configurations (`toast.service.ts`)

Action handlers are closures; their labels identify them here, and their
behaviour is modelled by the events of the delete-confirmation machine
below. -/

inductive ToastType where
  | success
  | error
  | warning
  | info
deriving DecidableEq, Repr

/-- The `ToastConfig` interface of toast.service.ts (actions reduced to their labels). -/
structure ToastConfig where
  type : ToastType
  title : Option String := none
  message : String
  duration : Option Nat := none
  action : Option String := none
  actions : Option (List String) := none
deriving DecidableEq, Repr

/-- The config `ToastService.showSuccess(message, title?)` passes to `show`. -/
def showSuccess (message : String) (title : Option String) : ToastConfig :=
  { type := .success, message := message, title := title, duration := some 1500 }

/-- The config `ToastService.showError(message, title?)` passes to `show`. -/
def showError (message : String) (title : Option String) : ToastConfig :=
  { type := .error, message := message, title := title, duration := some 5000 }

/-- The config `ToastService.showWarningWithActions(message, actions, title?)`
passes to `show`. -/
def showWarningWithActions (message : String) (actions : List String)
    (title : Option String) : ToastConfig :=
  { type := .warning, message := message, title := title,
    actions := some actions, duration := some 5000 }

/-! ### Remote writes (Firestore operations issued by the services) -/

/-- A `Partial<Task>` as passed to `updateDoc`: only the present fields are
written. -/
structure TaskUpdate where
  title : Option String := none
  description : Option String := none
  category : Option String := none
  priority : Option String := none
  status : Option String := none
  assignedContacts : Option (List String) := none
  subtasks : Option (List Subtask) := none
  dueDate : Option Nat := none
  createdAt : Option Nat := none
  updatedAt : Option Nat := none
  color : Option Nat := none
deriving DecidableEq, Repr

/-- The document literal `addTask` passes to `setDoc`. -/
structure TaskData where
  title : String
  description : String
  category : String
  priority : String
  status : String
  assignedContacts : List String
  subtasks : List Subtask
  dueDate : Option Nat
  createdAt : Nat
  updatedAt : Nat
  color : Nat
deriving DecidableEq, Repr

/-- The `Contact` entity (`src/app/core/interfaces/contact.ts`). -/
structure Contact where
  id : String
  name : String
  email : String
  telephone : String
  initials : String
  color : Option Nat
deriving DecidableEq, Repr

/-- The document literal the sequential-id `addContact` passes to `setDoc`. -/
structure ContactData where
  name : String
  email : String
  telephone : String
  initials : String
  color : Option Nat
deriving DecidableEq, Repr

/-- A remote document-store write, reified. -/
inductive RemoteOp where
  | setTask (col : String) (id : String) (data : TaskData)
  | setContact (col : String) (id : String) (data : ContactData)
  | update (col : String) (id : String) (data : TaskUpdate)
  | delete (col : String) (id : String)
deriving DecidableEq, Repr

/-! ### TaskService / ContactService CRUD

Each operation returns the promise outcome (`Except`) next to the list of
remote writes it issued.  The outcome of the underlying SDK call is an
argument (`write` / `del` / `scan`), since the store is external. -/

/-- Embeds `TaskService.updateTask(taskId, updates)`: a falsy (empty) id returns at
once; otherwise one `updateDoc` with the updates spread together with a fresh
`updatedAt`, and any SDK failure is rethrown as "Failed to update task". -/
def updateTask (taskId : String) (updates : TaskUpdate) (now : Nat)
    (write : Except String Unit) : Except String Unit × List RemoteOp :=
  if taskId = "" then (Except.ok (), [])
  else
    let op := RemoteOp.update "tasks" taskId { updates with updatedAt := some now }
    match write with
    | .ok _ => (Except.ok (), [op])
    | .error _ => (Except.error "Failed to update task", [op])

/-- Embeds `TaskService.deleteTask(taskId)`. -/
def deleteTask (taskId : String) (del : Except String Unit) :
    Except String Unit × List RemoteOp :=
  if taskId = "" then (Except.ok (), [])
  else
    match del with
    | .ok _ => (Except.ok (), [RemoteOp.delete "tasks" taskId])
    | .error _ => (Except.error "Failed to delete task", [RemoteOp.delete "tasks" taskId])

/-- Embeds `ContactService.deleteContact(contactId)`. -/
def deleteContact (contactId : String) (del : Except String Unit) :
    Except String Unit × List RemoteOp :=
  if contactId = "" then (Except.ok (), [])
  else
    match del with
    | .ok _ => (Except.ok (), [RemoteOp.delete "contacts" contactId])
    | .error _ =>
      (Except.error "Failed to delete contact", [RemoteOp.delete "contacts" contactId])

/-- Embeds `TaskService.addTask(task)`: generate the next sequential id from a fresh
scan of the collection, then `setDoc` the document literal.  `scan` is the
outcome of the `getDocs` inside `generateNextTaskId` (the ids on success),
`write` the outcome of `setDoc`, `rand` the value of
`generateRandomColor()`, `now` the `new Date()` timestamp.  Both failures
reach the single `catch`, which rethrows the original error — in particular
a failed scan aborts before `setDoc` runs. -/
def addTask (task : Task) (scan : Except String (List String)) (now : Nat)
    (rand : Nat) (write : Except String Unit) :
    Except String String × List RemoteOp :=
  match scan with
  | .error e => (Except.error e, [])
  | .ok ids =>
    let taskId := generateNextTaskId ids
    let taskData : TaskData :=
      { title := task.title
        description := task.description      -- `task.description || ""` (identity on total strings)
        category := task.category
        priority := task.priority
        status := if task.status = "" then "todo" else task.status
        assignedContacts := task.assignedContacts
        subtasks := task.subtasks
        dueDate := task.dueDate              -- `task.dueDate || null`
        createdAt := now
        updatedAt := now
        color := match task.color with       -- `task.color || this.generateRandomColor()`
          | some c => if c = 0 then rand else c
          | none => rand }
    match write with
    | .ok _ => (Except.ok taskId, [RemoteOp.setTask "tasks" taskId taskData])
    | .error e => (Except.error e, [RemoteOp.setTask "tasks" taskId taskData])

/-- Embeds `ContactService.addContact(contact)` (sequential-id variant): generate
the next contact id from a fresh scan, then `setDoc`; the `catch` logs and
rethrows, so a failed scan aborts before `setDoc` runs. -/
def addContact (contact : Contact) (scan : Except String (List String))
    (write : Except String Unit) : Except String String × List RemoteOp :=
  match scan with
  | .error e => (Except.error e, [])
  | .ok ids =>
    let contactId := generateNextContactId ids
    let contactData : ContactData :=
      { name := contact.name, email := contact.email,
        telephone := contact.telephone, initials := contact.initials,
        color := contact.color }
    match write with
    | .ok _ => (Except.ok contactId, [RemoteOp.setContact "contacts" contactId contactData])
    | .error e => (Except.error e, [RemoteOp.setContact "contacts" contactId contactData])

/-! ### Board drag-and-drop controller (`board-view.ts`) -/

/-- Embeds `BoardView.formatStatus`. -/
def formatStatus (status : String) : String :=
  if status = "todo" then "To Do"
  else if status = "in-progress" then "In Progress"
  else if status = "awaiting-feedback" then "Awaiting Feedback"
  else if status = "done" then "Done"
  else status

/-- The drop-list ids of the four board columns (`ALL_STATUS_KEYS`). -/
def allStatusKeys : List String :=
  ["todo", "in-progress", "awaiting-feedback", "done"]

/-- Embeds `BoardView.updateTaskStatus(taskId, newStatus)`: one
`updateTask(taskId, ... status ...)`, then a success toast naming the
formatted new status, or an error toast if the promise rejected. -/
def updateTaskStatus (taskId : String) (newStatus : String) (now : Nat)
    (write : Except String Unit) : List RemoteOp × List ToastConfig :=
  let r := updateTask taskId { status := some newStatus } now write
  match r.1 with
  | .ok _ =>
    (r.2, [showSuccess "Task status updated"
      (some ("The task status was changed to \"" ++ formatStatus newStatus ++ "\"."))])
  | .error _ =>
    (r.2, [showError "Error"
      (some "The task status could not be updated in the database.")])

/-- Embeds `BoardView.drop(event)`: two CDK drop lists are the same container
exactly when the source and destination stage ids coincide; a same-container
drop does nothing remote, a cross-container drop splices the task locally
(`transferArrayItem`, superseded by the next snapshot) and calls
`updateTaskStatus` with the id of the destination container. -/
def drop (fromStage : String) (toStage : String) (movedTask : Task) (now : Nat)
    (write : Except String Unit) : List RemoteOp × List ToastConfig :=
  if fromStage = toStage then ([], [])
  else updateTaskStatus movedTask.id toStage now write

/-! ### Two-step delete confirmation (`contact-view.ts`)

`setTimeout` handles are drawn from a counter; `live` is the set of
scheduled, not-yet-fired, not-yet-cancelled browser timers whose callback is
`() => this.resetDeleteConfirmation()`. -/

/-- The fields `deleteConfirmationContactId` / `deleteConfirmationTimeout`
of `ContactView`. -/
structure ContactViewState where
  deleteConfirmationContactId : Option String
  deleteConfirmationTimeout : Option Nat
deriving DecidableEq, Repr

/-- Browser timer registry for the confirmation timeout callbacks. -/
structure TimerEnv where
  live : List Nat
  next : Nat
deriving DecidableEq, Repr

/-- The component state together with its observable effects. -/
structure DeleteWorld where
  view : ContactViewState
  timers : TimerEnv
  remoteOps : List RemoteOp
  toasts : List ToastConfig
deriving DecidableEq, Repr

/-- The world before any delete interaction (browser handles start at 1). -/
def initialDeleteWorld : DeleteWorld :=
  { view := ⟨none, none⟩, timers := ⟨[], 1⟩, remoteOps := [], toasts := [] }

/-- Embeds `ContactView.resetDeleteConfirmation`: null the pending id and, if a
timeout handle is stored, `clearTimeout` it and clear the field. -/
def resetDeleteConfirmation (w : DeleteWorld) : DeleteWorld :=
  let live' := match w.view.deleteConfirmationTimeout with
    | some h => w.timers.live.filter (fun x => x ≠ h)
    | none => w.timers.live
  { w with view := ⟨none, none⟩, timers := { w.timers with live := live' } }

/-- Embeds `ContactView.performDelete(contactId)`: delete via the service, then a
success toast, reset and navigate back — or an error toast and reset. -/
def performDelete (contactId : String) (outcome : Except String Unit)
    (w : DeleteWorld) : DeleteWorld :=
  let r := deleteContact contactId outcome
  let w' := { w with remoteOps := w.remoteOps ++ r.2 }
  match r.1 with
  | .ok _ =>
    resetDeleteConfirmation
      { w' with toasts := w'.toasts ++ [showSuccess "Contact deleted successfully" none] }
  | .error _ =>
    resetDeleteConfirmation
      { w' with toasts := w'.toasts ++ [showError "Failed to delete contact. Please try again." none] }

/-- Embeds `ContactView.onDeleteContact(contactId)`: a falsy id returns; a repeated
request for the already-pending target confirms immediately; otherwise the
pending id is set, the warning toast with Cancel/Delete actions is shown and
a fresh 5-second timeout is stored — the previously stored handle, if any,
is overwritten without a `clearTimeout`. -/
def onDeleteContact (contactId : String) (outcome : Except String Unit)
    (w : DeleteWorld) : DeleteWorld :=
  if contactId = "" then w
  else if w.view.deleteConfirmationContactId = some contactId then
    performDelete contactId outcome w
  else
    let h := w.timers.next
    { view := ⟨some contactId, some h⟩
      timers := ⟨w.timers.live ++ [h], w.timers.next + 1⟩
      remoteOps := w.remoteOps
      toasts := w.toasts ++
        [showWarningWithActions "Delete this contact?" ["Cancel", "Delete"] none] }

/-- The browser firing the 5-second timeout with handle `h`: a live timer is
consumed and its callback `() => this.resetDeleteConfirmation()` runs; a
cancelled or already-fired handle does nothing. -/
def fireDeleteTimeout (h : Nat) (w : DeleteWorld) : DeleteWorld :=
  if h ∈ w.timers.live then
    resetDeleteConfirmation
      { w with timers := { w.timers with live := w.timers.live.filter (fun x => x ≠ h) } }
  else w

/-- The "Cancel" toast action: `() => this.resetDeleteConfirmation()`. -/
def cancelDeleteAction (w : DeleteWorld) : DeleteWorld :=
  resetDeleteConfirmation w

/-! ### NotificationChannel occupancy (spec-modelled) -/

/-- Modelled from the spec: the `app.html` template that mounts the `Toast`
component for the current `ToastService` config (and thereby ties the
auto-hide timer of the component hook ngOnInit to the lifetime of each shown config)
is not among the sources; per §4.6, `show(config)` unconditionally replaces
the current state and cancels any previously *requested* auto-hide timer,
and a timer auto-hides only the config it was requested for.  The channel
state: the current config, the handle of the timer requested for it (absent
when its effective duration — the component default is 4000ms — is 0), and
a fresh-handle counter. -/
structure ChannelState where
  current : Option ToastConfig
  activeTimer : Option Nat
  nextTimer : Nat
deriving DecidableEq, Repr

/-- Modelled from the spec (§4.6): `show(config)` replaces the current state;
the previously requested timer handle is discarded (cancelled) and a fresh
timer is requested unless the effective duration is 0. -/
def channelShow (cfg : ToastConfig) (s : ChannelState) : ChannelState :=
  { current := some cfg
    activeTimer := if cfg.duration.getD 4000 > 0 then some s.nextTimer else none
    nextTimer := s.nextTimer + 1 }

/-- Modelled from the spec: `hide()` clears the state. -/
def channelHide (s : ChannelState) : ChannelState :=
  { current := none, activeTimer := none, nextTimer := s.nextTimer }

/-- Modelled from the spec: the auto-hide timer with handle `h` firing hides
the current toast only if `h` is still the requested (uncancelled) timer. -/
def channelFire (h : Nat) (s : ChannelState) : ChannelState :=
  if s.activeTimer = some h then channelHide s else s

/-! ### Shared concrete inputs for witnesses -/

/-- A concrete task used by witnesses. -/
def sampleTask : Task :=
  { id := "task-001", title := "Sample", description := "", category := "Technical Task",
    priority := "medium", status := "todo", assignedContacts := [], subtasks := [],
    dueDate := none, createdAt := none, updatedAt := none, color := some 3 }

/-- Default element for `List.getD` on task lists. -/
def defaultTask : Task :=
  { id := "", title := "", description := "", category := "", priority := "",
    status := "", assignedContacts := [], subtasks := [], dueDate := none,
    createdAt := none, updatedAt := none, color := none }

/-! ### Theorems -/

/-- C9: the field-coercion step of the mirror (`buildDocument`) defaults every
missing optional field: absent `assignedContacts` and `subtasks` become
empty arrays, an absent `status` becomes "todo", absent `title` and
`description` become empty strings. -/
theorem buildDocument_defaults (id : String) (data : RawDoc) :
    (data.assignedContacts = none → (buildDocument id data).assignedContacts = []) ∧
    (data.subtasks = none → (buildDocument id data).subtasks = []) ∧
    (data.status = none → (buildDocument id data).status = "todo") ∧
    (data.title = none → (buildDocument id data).title = "") ∧
    (data.description = none → (buildDocument id data).description = "") := by
  refine ⟨?_, ?_, ?_, ?_, ?_⟩ <;> intro h <;> simp [buildDocument, strOr, h]

/-- C9 witness: the defaults on the fully-absent raw document. -/
theorem buildDocument_defaults_witness :
    (RawDoc.empty.assignedContacts = none) ∧
    (buildDocument "task-001" RawDoc.empty).assignedContacts = [] ∧
    (buildDocument "task-001" RawDoc.empty).subtasks = [] ∧
    (buildDocument "task-001" RawDoc.empty).status = "todo" ∧
    (buildDocument "task-001" RawDoc.empty).title = "" ∧
    (buildDocument "task-001" RawDoc.empty).description = "" :=
  ⟨rfl,
    (buildDocument_defaults "task-001" RawDoc.empty).1 rfl,
    (buildDocument_defaults "task-001" RawDoc.empty).2.1 rfl,
    (buildDocument_defaults "task-001" RawDoc.empty).2.2.1 rfl,
    (buildDocument_defaults "task-001" RawDoc.empty).2.2.2.1 rfl,
    (buildDocument_defaults "task-001" RawDoc.empty).2.2.2.2 rfl⟩

/-- C10: with an empty (falsy) id, `updateTask`, `deleteTask` and
`deleteContact` resolve successfully and issue no remote operation,
whatever the remote store would have answered. -/
theorem emptyId_silent_noop (updates : TaskUpdate) (now : Nat)
    (write del : Except String Unit) :
    updateTask "" updates now write = (Except.ok (), []) ∧
    deleteTask "" del = (Except.ok (), []) ∧
    deleteContact "" del = (Except.ok (), []) :=
  ⟨rfl, rfl, rfl⟩

/-- C7: if the id-generation scan fails, `addTask` and `addContact` fail
with that very error and issue no remote write at all. -/
theorem add_fails_on_scan_error (task : Task) (contact : Contact) (e : String)
    (now rand : Nat) (write : Except String Unit) :
    addTask task (Except.error e) now rand write = (Except.error e, []) ∧
    addContact contact (Except.error e) write = (Except.error e, []) :=
  ⟨rfl, rfl⟩

/-- The scanning fold of the generators equals the fold of `max` over the
parsed numbers of the matching ids. -/
theorem maxSeqNum_eq_foldl (pre : String) (ids : List String) :
    maxSeqNum pre ids = (ids.filterMap (matchSeqNum pre)).foldl max 0 := by
  have h : ∀ (l : List String) (m : Nat),
      l.foldl
        (fun maxNum id =>
          match matchSeqNum pre id with
          | some n => max maxNum n
          | none => maxNum)
        m = (l.filterMap (matchSeqNum pre)).foldl max m := by
    intro l
    induction l with
    | nil => intro m; rfl
    | cons a l ih =>
      intro m
      simp only [List.foldl_cons, List.filterMap_cons]
      cases hm : matchSeqNum pre a with
      | none => simpa using ih m
      | some n => simpa using ih (max m n)
  exact h ids 0

/-- C3: the sequential id generators return the prefix followed by the
successor of the maximum number among the ids matching the prefixed-number
pattern (0 when none match, non-matching ids ignored), zero-padded to three
digits; on a collection holding 001, 002 and 005 the next id is 006 — the
gap is not backfilled. -/
theorem generateNextId_spec (ids : List String) :
    generateNextTaskId ids =
      "task-" ++ padStart3 ((ids.filterMap (matchSeqNum "task-")).foldl max 0 + 1) ∧
    generateNextContactId ids =
      "contact-" ++ padStart3 ((ids.filterMap (matchSeqNum "contact-")).foldl max 0 + 1) ∧
    generateNextTaskId ["task-001", "task-002", "task-005"] = "task-006" ∧
    generateNextContactId ["contact-001", "contact-002", "contact-005"] = "contact-006" ∧
    generateNextTaskId ["task-001", "contact-999", "task-005", "task-01x", "k7GpQ"] =
      "task-006" ∧
    generateNextTaskId [] = "task-001" := by
  refine ⟨?_, ?_, by decide, by decide, by decide, by decide⟩
  · unfold generateNextTaskId
    rw [maxSeqNum_eq_foldl]
  · unfold generateNextContactId
    rw [maxSeqNum_eq_foldl]

/-- C6: `show(cfg1)` immediately followed by `show(cfg2)` leaves `cfg2` as
the only observable state, and the auto-hide timer requested for `cfg1` is
cancelled: its firing changes nothing — it can never hide `cfg2`. -/
theorem channel_show_show_replaces (s : ChannelState) (cfg1 cfg2 : ToastConfig)
    (h : Nat) (ht : (channelShow cfg1 s).activeTimer = some h) :
    (channelShow cfg2 (channelShow cfg1 s)).current = some cfg2 ∧
    channelFire h (channelShow cfg2 (channelShow cfg1 s)) =
      channelShow cfg2 (channelShow cfg1 s) := by
  have hh : h = s.nextTimer := by
    by_cases hd : cfg1.duration.getD 4000 > 0 <;> simp [channelShow, hd] at ht
    exact ht.symm
  have hne : (channelShow cfg2 (channelShow cfg1 s)).activeTimer ≠ some h := by
    subst hh
    by_cases hd2 : cfg2.duration.getD 4000 > 0 <;> simp [channelShow, hd2]
  exact ⟨rfl, by simp [channelFire, hne]⟩

/-- C6 witness: a success toast replaced at once by an error toast. -/
theorem channel_show_show_replaces_witness :
    (channelShow (showSuccess "saved" none) ⟨none, none, 0⟩).activeTimer = some 0 ∧
    (channelShow (showError "failed" none)
      (channelShow (showSuccess "saved" none) ⟨none, none, 0⟩)).current =
        some (showError "failed" none) ∧
    channelFire 0
        (channelShow (showError "failed" none)
          (channelShow (showSuccess "saved" none) ⟨none, none, 0⟩)) =
      channelShow (showError "failed" none)
        (channelShow (showSuccess "saved" none) ⟨none, none, 0⟩) :=
  ⟨rfl,
    (channel_show_show_replaces ⟨none, none, 0⟩ (showSuccess "saved" none)
      (showError "failed" none) 0 rfl).1,
    (channel_show_show_replaces ⟨none, none, 0⟩ (showSuccess "saved" none)
      (showError "failed" none) 0 rfl).2⟩

/-- C4 (failing run): requesting deletion of contact "A" and then, while "A"
is still pending, of a different contact "B" leaves "B" pending — but the
5-second timer armed for "A" (handle 1) is still live instead of being
cancelled, and when it fires it wipes the pending confirmation for "B"
(and cancels the timer of "B" as well) without any deletion having been issued. -/
theorem stale_delete_timer_not_cancelled :
    (onDeleteContact "B" (Except.ok ())
        (onDeleteContact "A" (Except.ok ()) initialDeleteWorld)).view =
      ⟨some "B", some 2⟩ ∧
    1 ∈ (onDeleteContact "B" (Except.ok ())
        (onDeleteContact "A" (Except.ok ()) initialDeleteWorld)).timers.live ∧
    (fireDeleteTimeout 1
        (onDeleteContact "B" (Except.ok ())
          (onDeleteContact "A" (Except.ok ()) initialDeleteWorld))).view =
      ⟨none, none⟩ ∧
    (fireDeleteTimeout 1
        (onDeleteContact "B" (Except.ok ())
          (onDeleteContact "A" (Except.ok ()) initialDeleteWorld))).timers.live = [] ∧
    (fireDeleteTimeout 1
        (onDeleteContact "B" (Except.ok ())
          (onDeleteContact "A" (Except.ok ()) initialDeleteWorld))).remoteOps = [] := by
  decide

/-- C5: a same-stage drop issues no remote write at all; a cross-stage drop
of a task with a non-empty id issues exactly one partial update on that
document of that task, carrying only the destination status and a fresh
`updatedAt` (every other field of the update payload is absent). -/
theorem drop_remote_writes (fromStage toStage : String) (t : Task) (now : Nat)
    (write : Except String Unit) :
    (fromStage = toStage → (drop fromStage toStage t now write).1 = []) ∧
    (fromStage ≠ toStage → t.id ≠ "" →
      (drop fromStage toStage t now write).1 =
        [RemoteOp.update "tasks" t.id { status := some toStage, updatedAt := some now }]) := by
  constructor
  · intro h
    simp [drop, h]
  · intro hne hid
    cases write <;>
      simp [drop, hne, updateTaskStatus, updateTask, hid]

/-- C5 witness: the move of `sampleTask` from "todo" to "done" issues the
single status-only update, and a "done" → "done" drop issues nothing. -/
theorem drop_remote_writes_witness :
    (("todo" : String) ≠ "done") ∧ (sampleTask.id ≠ "") ∧
    (drop "todo" "done" sampleTask 7 (Except.ok ())).1 =
      [RemoteOp.update "tasks" sampleTask.id
        { status := some "done", updatedAt := some 7 }] ∧
    (drop "done" "done" sampleTask 7 (Except.ok ())).1 = [] :=
  ⟨by decide, by decide,
    (drop_remote_writes "todo" "done" sampleTask 7 (Except.ok ())).2
      (by decide) (by decide),
    (drop_remote_writes "done" "done" sampleTask 7 (Except.ok ())).1 rfl⟩

/-- C8 counterexample: the success notification for a successful
"in-progress" → "done" move mentions only the destination — neither its
title nor its message contains the source-stage key "in-progress" or its
display label "In Progress", so the notification does not name the source
stage. -/
theorem success_toast_omits_source_stage :
    (drop "in-progress" "done" sampleTask 7 (Except.ok ())).2 =
      [showSuccess "Task status updated"
        (some "The task status was changed to \"Done\".")] ∧
    ¬ ("in-progress".toList <:+: "Task status updated".toList) ∧
    ¬ ("In Progress".toList <:+: "Task status updated".toList) ∧
    ¬ ("in-progress".toList <:+: "The task status was changed to \"Done\".".toList) ∧
    ¬ ("In Progress".toList <:+: "The task status was changed to \"Done\".".toList) := by
  refine ⟨?_, by decide, by decide, by decide, by decide⟩
  decide

/-- C8 (amended): for a cross-stage move of a task with a non-empty id
between two board columns, a successful remote update emits exactly one
success notification whose text names the display label of the destination stage
but never the source stage (neither its key nor its display label), and a
failed remote update emits exactly one error notification. -/
theorem updateTaskStatus_toasts (fromStage toStage : String) (t : Task)
    (now : Nat) (e : String) (hfrom : fromStage ∈ allStatusKeys)
    (hto : toStage ∈ allStatusKeys) (hne : fromStage ≠ toStage)
    (hid : t.id ≠ "") :
    ((drop fromStage toStage t now (Except.ok ())).2 =
      [showSuccess "Task status updated"
        (some ("The task status was changed to \"" ++ formatStatus toStage ++ "\"."))]) ∧
    ((formatStatus toStage).toList <:+:
      ("The task status was changed to \"" ++ formatStatus toStage ++ "\".").toList) ∧
    (¬ ((formatStatus fromStage).toList <:+:
      ("The task status was changed to \"" ++ formatStatus toStage ++ "\".").toList)) ∧
    (¬ (fromStage.toList <:+:
      ("The task status was changed to \"" ++ formatStatus toStage ++ "\".").toList)) ∧
    (¬ ((formatStatus fromStage).toList <:+: "Task status updated".toList)) ∧
    (¬ (fromStage.toList <:+: "Task status updated".toList)) ∧
    ((drop fromStage toStage t now (Except.error e)).2 =
      [showError "Error" (some "The task status could not be updated in the database.")]) := by
  refine ⟨?_, ?_, ?_, ?_, ?_, ?_, ?_⟩
  · simp [drop, hne, updateTaskStatus, updateTask, hid]
  · exact ⟨"The task status was changed to \"".toList, "\".".toList, by simp⟩
  all_goals
    simp only [allStatusKeys, List.mem_cons, List.not_mem_nil, or_false] at hfrom hto
  · rcases hfrom with h1 | h1 | h1 | h1 <;> rcases hto with h2 | h2 | h2 | h2 <;>
      subst h1 <;> subst h2 <;> first
      | exact absurd rfl hne
      | decide
  · rcases hfrom with h1 | h1 | h1 | h1 <;> rcases hto with h2 | h2 | h2 | h2 <;>
      subst h1 <;> subst h2 <;> first
      | exact absurd rfl hne
      | decide
  · rcases hfrom with h1 | h1 | h1 | h1 <;> subst h1 <;> decide
  · rcases hfrom with h1 | h1 | h1 | h1 <;> subst h1 <;> decide
  · simp [drop, hne, updateTaskStatus, updateTask, hid]

/-- C8 witness: the amended statement at the concrete successful and failed
"todo" → "done" moves of `sampleTask`. -/
theorem updateTaskStatus_toasts_witness :
    (drop "todo" "done" sampleTask 7 (Except.ok ())).2 =
      [showSuccess "Task status updated"
        (some ("The task status was changed to \"" ++ formatStatus "done" ++ "\"."))] ∧
    (drop "todo" "done" sampleTask 7 (Except.error "boom")).2 =
      [showError "Error" (some "The task status could not be updated in the database.")] :=
  ⟨(updateTaskStatus_toasts "todo" "done" sampleTask 7 "boom" (by decide) (by decide)
      (by decide) (by decide)).1,
    (updateTaskStatus_toasts "todo" "done" sampleTask 7 "boom" (by decide) (by decide)
      (by decide) (by decide)).2.2.2.2.2.2⟩

/-! ### Dictionary lemmas for the stage partitioner -/

theorem dictPush_fst (kv : String × List Task) (k : String) (t : Task) :
    (if kv.1 = k then (kv.1, kv.2 ++ [t]) else kv).1 = kv.1 := by
  by_cases h : kv.1 = k <;> simp [h]

theorem dictKeys_dictPush (d : TaskDict) (k : String) (t : Task) :
    dictKeys (dictPush d k t) = dictKeys d := by
  unfold dictKeys dictPush
  rw [List.map_map]
  apply List.map_congr_left
  intro kv _
  simp only [Function.comp_apply]
  exact dictPush_fst kv k t

theorem dictHasKey_iff (d : TaskDict) (k : String) :
    dictHasKey d k = true ↔ k ∈ dictKeys d := by
  simp only [dictHasKey, dictKeys, List.any_eq_true, List.mem_map,
    decide_eq_true_eq]

theorem dictPush_of_not_mem (d : TaskDict) (k : String) (t : Task)
    (h : k ∉ dictKeys d) : dictPush d k t = d := by
  induction d with
  | nil => rfl
  | cons kv rest ih =>
    have h1 : kv.1 ≠ k := by
      intro he
      exact h (by simp [dictKeys, he])
    have h2 : k ∉ dictKeys rest := by
      intro hm
      exact h (by simp only [dictKeys, List.map_cons, List.mem_cons]; exact Or.inr hm)
    show (if kv.1 = k then (kv.1, kv.2 ++ [t]) else kv) :: dictPush rest k t = kv :: rest
    rw [if_neg h1, ih h2]

theorem lookup_dictPush (d : TaskDict) (k q : String) (t : Task)
    (hnd : (dictKeys d).Nodup) :
    List.lookup q (dictPush d k t) =
      if q = k then (List.lookup q d).map (fun b => b ++ [t])
      else List.lookup q d := by
  induction d with
  | nil =>
    by_cases hq : q = k <;> simp [dictPush, hq]
  | cons kv rest ih =>
    obtain ⟨k1, b1⟩ := kv
    have hnd2 : (k1 :: dictKeys rest).Nodup := hnd
    have hk : k1 ∉ dictKeys rest := (List.nodup_cons.mp hnd2).1
    have hnd' : (dictKeys rest).Nodup := (List.nodup_cons.mp hnd2).2
    show List.lookup q
        ((if k1 = k then (k1, b1 ++ [t]) else (k1, b1)) :: dictPush rest k t) = _
    by_cases h1 : k1 = k
    · have hrest : dictPush rest k t = rest := dictPush_of_not_mem rest k t (h1 ▸ hk)
      rw [if_pos h1, hrest]
      by_cases hq : q = k1
      · have hqk : q = k := hq.trans h1
        have hbe : (q == k1) = true := beq_iff_eq.mpr hq
        have hbe2 : (k == k1) = true := beq_iff_eq.mpr h1.symm
        simp [List.lookup_cons, hbe, hqk, hbe2]
      · have hqk : q ≠ k := fun he => hq (he.trans h1.symm)
        have hbe : (q == k1) = false := beq_eq_false_iff_ne.mpr hq
        simp [List.lookup_cons, hbe, hqk]
    · rw [if_neg h1]
      by_cases hq : q = k1
      · have hqk : q ≠ k := fun he => h1 (by rw [← hq]; exact he)
        have hbe : (q == k1) = true := beq_iff_eq.mpr hq
        simp [List.lookup_cons, hbe, hqk]
      · have hbe : (q == k1) = false := beq_eq_false_iff_ne.mpr hq
        simp [List.lookup_cons, hbe, ih hnd']

theorem lookup_isSome_iff (d : TaskDict) (k : String) :
    (List.lookup k d).isSome = true ↔ k ∈ dictKeys d := by
  induction d with
  | nil => simp [dictKeys]
  | cons kv rest ih =>
    obtain ⟨k1, b1⟩ := kv
    by_cases hq : k = k1
    · subst hq
      simp [List.lookup_cons, dictKeys]
    · have hbe : (k == k1) = false := beq_eq_false_iff_ne.mpr hq
      simp [List.lookup_cons, hbe, dictKeys, hq, ih]

theorem lookup_append_dict (d e : TaskDict) (q : String) :
    List.lookup q (d ++ e) =
      match List.lookup q d with
      | some v => some v
      | none => List.lookup q e := by
  induction d with
  | nil => simp
  | cons kv rest ih =>
    obtain ⟨k1, b1⟩ := kv
    by_cases hq : q = k1
    · have hbe : (q == k1) = true := beq_iff_eq.mpr hq
      simp [List.lookup_cons, hbe]
    · have hbe : (q == k1) = false := beq_eq_false_iff_ne.mpr hq
      simp [List.lookup_cons, hbe, ih]

theorem bucketOf_insertTask (d : TaskDict) (t : Task) (k : String)
    (hnd : (dictKeys d).Nodup) :
    bucketOf (insertTask d t) k =
      if k = effStatus t then bucketOf d k ++ [t] else bucketOf d k := by
  unfold insertTask bucketOf
  by_cases hs : dictHasKey d (effStatus t) = true
  · simp only [hs, if_true]
    rw [lookup_dictPush d (effStatus t) k t hnd]
    by_cases hk : k = effStatus t
    · have hmem : effStatus t ∈ dictKeys d := (dictHasKey_iff d _).mp hs
      obtain ⟨b, hb⟩ :=
        Option.isSome_iff_exists.mp ((lookup_isSome_iff d _).mpr hmem)
      simp [hk, hb]
    · simp [hk]
  · have hs' : dictHasKey d (effStatus t) = false := by
      cases hdk : dictHasKey d (effStatus t)
      · rfl
      · exact absurd hdk hs
    have hnotmem : effStatus t ∉ dictKeys d := fun hm => hs ((dictHasKey_iff d _).mpr hm)
    have hlook : List.lookup (effStatus t) d = none := by
      cases hL : List.lookup (effStatus t) d
      · rfl
      · exact absurd ((lookup_isSome_iff d _).mp (by simp [hL])) hnotmem
    have hnd' : (dictKeys (d ++ [(effStatus t, [])])).Nodup := by
      simp only [dictKeys, List.map_append]
      rw [List.nodup_append]
      refine ⟨by simpa [dictKeys] using hnd, by simp, ?_⟩
      intro x hx hx'
      simp at hx'
      exact hnotmem (hx' ▸ hx)
    simp only [hs', if_false, Bool.false_eq_true]
    rw [lookup_dictPush _ (effStatus t) k t hnd']
    by_cases hk : k = effStatus t
    · subst hk
      rw [lookup_append_dict]
      simp [hlook, List.lookup_cons]
    · rw [lookup_append_dict]
      cases hL : List.lookup k d with
      | some v => simp [hk, hL]
      | none =>
        have hbe : (k == effStatus t) = false := beq_eq_false_iff_ne.mpr hk
        simp [hk, hL, List.lookup_cons, hbe]

theorem dictTasks_dictPush (d : TaskDict) (k : String) (t : Task)
    (hmem : k ∈ dictKeys d) (hnd : (dictKeys d).Nodup) :
    (dictTasks (dictPush d k t)).Perm (dictTasks d ++ [t]) := by
  induction d with
  | nil => simp [dictKeys] at hmem
  | cons kv rest ih =>
    obtain ⟨k1, b1⟩ := kv
    have hnd2 : (k1 :: dictKeys rest).Nodup := hnd
    have hk : k1 ∉ dictKeys rest := (List.nodup_cons.mp hnd2).1
    have hnd' : (dictKeys rest).Nodup := (List.nodup_cons.mp hnd2).2
    by_cases h1 : k1 = k
    · have hrest : dictPush rest k t = rest := dictPush_of_not_mem rest k t (h1 ▸ hk)
      show List.Perm
        (dictTasks ((if k1 = k then (k1, b1 ++ [t]) else (k1, b1)) :: dictPush rest k t))
        (dictTasks ((k1, b1) :: rest) ++ [t])
      rw [if_pos h1, hrest]
      show List.Perm ((b1 ++ [t]) ++ dictTasks rest) ((b1 ++ dictTasks rest) ++ [t])
      have hstep : List.Perm ([t] ++ dictTasks rest) (dictTasks rest ++ [t]) :=
        List.perm_append_comm
      simpa [List.append_assoc] using hstep.append_left b1
    · have hmem' : k ∈ dictKeys rest := by
        have hm : k ∈ k1 :: dictKeys rest := hmem
        rcases List.mem_cons.mp hm with h | h
        · exact absurd h.symm h1
        · exact h
      show List.Perm
        (dictTasks ((if k1 = k then (k1, b1 ++ [t]) else (k1, b1)) :: dictPush rest k t))
        (dictTasks ((k1, b1) :: rest) ++ [t])
      rw [if_neg h1]
      show List.Perm (b1 ++ dictTasks (dictPush rest k t)) ((b1 ++ dictTasks rest) ++ [t])
      simpa [List.append_assoc] using (ih hmem' hnd').append_left b1

theorem dictKeys_insertTask_nodup (d : TaskDict) (t : Task)
    (hnd : (dictKeys d).Nodup) : (dictKeys (insertTask d t)).Nodup := by
  unfold insertTask
  by_cases hs : dictHasKey d (effStatus t) = true
  · simpa [hs, dictKeys_dictPush] using hnd
  · have hs' : dictHasKey d (effStatus t) = false := by
      cases hdk : dictHasKey d (effStatus t)
      · rfl
      · exact absurd hdk hs
    have hnotmem : effStatus t ∉ dictKeys d := fun hm => hs ((dictHasKey_iff d _).mpr hm)
    simp only [hs', Bool.false_eq_true, if_false]
    rw [dictKeys_dictPush]
    simp only [dictKeys, List.map_append]
    rw [List.nodup_append]
    refine ⟨by simpa [dictKeys] using hnd, by simp, ?_⟩
    intro x hx hx'
    simp at hx'
    exact hnotmem (hx' ▸ hx)

theorem dictTasks_insertTask (d : TaskDict) (t : Task)
    (hnd : (dictKeys d).Nodup) :
    (dictTasks (insertTask d t)).Perm (dictTasks d ++ [t]) := by
  unfold insertTask
  by_cases hs : dictHasKey d (effStatus t) = true
  · simp only [hs, if_true]
    exact dictTasks_dictPush d (effStatus t) t ((dictHasKey_iff d _).mp hs) hnd
  · have hs' : dictHasKey d (effStatus t) = false := by
      cases hdk : dictHasKey d (effStatus t)
      · rfl
      · exact absurd hdk hs
    have hnotmem : effStatus t ∉ dictKeys d := fun hm => hs ((dictHasKey_iff d _).mpr hm)
    have hnd' : (dictKeys (d ++ [(effStatus t, [])])).Nodup := by
      simp only [dictKeys, List.map_append]
      rw [List.nodup_append]
      refine ⟨by simpa [dictKeys] using hnd, by simp, ?_⟩
      intro x hx hx'
      simp at hx'
      exact hnotmem (hx' ▸ hx)
    have hmem' : effStatus t ∈ dictKeys (d ++ [(effStatus t, [])]) := by
      simp [dictKeys]
    simp only [hs', Bool.false_eq_true, if_false]
    have hperm := dictTasks_dictPush (d ++ [(effStatus t, [])]) (effStatus t) t hmem' hnd'
    have heq : dictTasks (d ++ [(effStatus t, [])]) = dictTasks d := by
      simp [dictTasks]
    rwa [heq] at hperm

theorem dict_entries_insertTask (d : TaskDict) (t : Task)
    (h : ∀ kv ∈ d, ∀ x ∈ kv.2, effStatus x = kv.1) :
    ∀ kv ∈ insertTask d t, ∀ x ∈ kv.2, effStatus x = kv.1 := by
  unfold insertTask
  have hbase : ∀ d' : TaskDict, (∀ kv ∈ d', ∀ x ∈ kv.2, effStatus x = kv.1) →
      ∀ kv ∈ dictPush d' (effStatus t) t, ∀ x ∈ kv.2, effStatus x = kv.1 := by
    intro d' hd' kv hkv x hx
    simp only [dictPush, List.mem_map] at hkv
    obtain ⟨kv0, hkv0, hkveq⟩ := hkv
    by_cases he : kv0.1 = effStatus t
    · rw [if_pos he] at hkveq
      subst hkveq
      simp only [List.mem_append, List.mem_singleton] at hx
      rcases hx with hx | hx
      · exact hd' kv0 hkv0 x hx
      · subst hx
        exact he.symm
    · rw [if_neg he] at hkveq
      subst hkveq
      exact hd' kv0 hkv0 x hx
  by_cases hs : dictHasKey d (effStatus t) = true
  · simpa [hs] using hbase d h
  · have hs' : dictHasKey d (effStatus t) = false := by
      cases hdk : dictHasKey d (effStatus t)
      · rfl
      · exact absurd hdk hs
    simp only [hs', Bool.false_eq_true, if_false]
    apply hbase
    intro kv hkv x hx
    rcases List.mem_append.mp hkv with hkv | hkv
    · exact h kv hkv x hx
    · simp only [List.mem_singleton] at hkv
      subst hkv
      simp at hx

theorem foldl_insertTask_nodup (ts : List Task) :
    ∀ d : TaskDict, (dictKeys d).Nodup → (dictKeys (ts.foldl insertTask d)).Nodup := by
  induction ts with
  | nil => intro d h; simpa using h
  | cons t ts ih =>
    intro d h
    simp only [List.foldl_cons]
    exact ih (insertTask d t) (dictKeys_insertTask_nodup d t h)

theorem foldl_insertTask_perm (ts : List Task) :
    ∀ d : TaskDict, (dictKeys d).Nodup →
      (dictTasks (ts.foldl insertTask d)).Perm (dictTasks d ++ ts) := by
  induction ts with
  | nil => intro d h; simp
  | cons t ts ih =>
    intro d h
    simp only [List.foldl_cons]
    have h1 := ih (insertTask d t) (dictKeys_insertTask_nodup d t h)
    have h2 := (dictTasks_insertTask d t h).append_right ts
    simpa [List.append_assoc] using h1.trans h2

theorem foldl_insertTask_bucket (ts : List Task) :
    ∀ d : TaskDict, (dictKeys d).Nodup → ∀ k,
      bucketOf (ts.foldl insertTask d) k =
        bucketOf d k ++ ts.filter (fun x => effStatus x = k) := by
  induction ts with
  | nil => intro d h k; simp
  | cons t ts ih =>
    intro d h k
    simp only [List.foldl_cons]
    rw [ih (insertTask d t) (dictKeys_insertTask_nodup d t h) k,
      bucketOf_insertTask d t k h, List.filter_cons]
    by_cases hk : k = effStatus t
    · have hd : (decide (effStatus t = k)) = true := by simp [hk]
      simp [hk, hd, List.append_assoc]
    · have hd : (decide (effStatus t = k)) = false := by
        simp only [decide_eq_false_iff_not]
        exact fun he => hk he.symm
      simp [hk, hd]

theorem foldl_insertTask_entries (ts : List Task) :
    ∀ d : TaskDict, (∀ kv ∈ d, ∀ x ∈ kv.2, effStatus x = kv.1) →
      ∀ kv ∈ ts.foldl insertTask d, ∀ x ∈ kv.2, effStatus x = kv.1 := by
  induction ts with
  | nil => intro d h; simpa using h
  | cons t ts ih =>
    intro d h
    simp only [List.foldl_cons]
    exact ih (insertTask d t) (dict_entries_insertTask d t h)

theorem lookup_sortBuckets (d : TaskDict) (k : String) :
    List.lookup k (sortBuckets d) = (List.lookup k d).map sortByPriority := by
  induction d with
  | nil => simp [sortBuckets]
  | cons kv rest ih =>
    obtain ⟨k1, b1⟩ := kv
    by_cases hq : k = k1
    · have hbe : (k == k1) = true := beq_iff_eq.mpr hq
      simp [sortBuckets, List.lookup_cons, hbe]
    · have hbe : (k == k1) = false := beq_eq_false_iff_ne.mpr hq
      simpa [sortBuckets, List.lookup_cons, hbe] using ih

theorem bucketOf_sortBuckets (d : TaskDict) (k : String) :
    bucketOf (sortBuckets d) k = sortByPriority (bucketOf d k) := by
  unfold bucketOf
  rw [lookup_sortBuckets]
  cases List.lookup k d with
  | none => simp [sortByPriority, List.insertionSort]
  | some b => simp

theorem dictTasks_sortBuckets (d : TaskDict) :
    (dictTasks (sortBuckets d)).Perm (dictTasks d) := by
  induction d with
  | nil => simp [sortBuckets, dictTasks]
  | cons kv rest ih =>
    show List.Perm (sortByPriority kv.2 ++ dictTasks (sortBuckets rest))
      (kv.2 ++ dictTasks rest)
    exact (List.perm_insertionSort priorityLE kv.2).append ih

theorem dictKeys_sortBuckets (d : TaskDict) :
    dictKeys (sortBuckets d) = dictKeys d := by
  unfold dictKeys sortBuckets
  rw [List.map_map]
  apply List.map_congr_left
  intro kv _
  rfl

theorem dict_entries_sortBuckets (d : TaskDict)
    (h : ∀ kv ∈ d, ∀ x ∈ kv.2, effStatus x = kv.1) :
    ∀ kv ∈ sortBuckets d, ∀ x ∈ kv.2, effStatus x = kv.1 := by
  intro kv hkv x hx
  simp only [sortBuckets, List.mem_map] at hkv
  obtain ⟨kv0, h0, rfl⟩ := hkv
  exact h kv0 h0 x ((List.mem_insertionSort priorityLE).mp hx)

theorem initialDict_keys_nodup : (dictKeys initialDict).Nodup := by decide

theorem initialDict_entries :
    ∀ kv ∈ initialDict, ∀ x ∈ kv.2, effStatus x = kv.1 := by
  intro kv hkv x hx
  simp only [initialDict, List.mem_cons, List.not_mem_nil, or_false] at hkv
  rcases hkv with rfl | rfl | rfl <;> cases hx

theorem bucketOf_empty_buckets (d : TaskDict)
    (h : ∀ kv ∈ d, kv.2 = ([] : List Task)) (k : String) : bucketOf d k = [] := by
  induction d with
  | nil => rfl
  | cons kv rest ih =>
    obtain ⟨k1, b1⟩ := kv
    have hb : b1 = [] := h (k1, b1) (by simp)
    by_cases hq : k = k1
    · have hbe : (k == k1) = true := beq_iff_eq.mpr hq
      simp [bucketOf, List.lookup_cons, hbe, hb]
    · have hbe : (k == k1) = false := beq_eq_false_iff_ne.mpr hq
      have hrest := ih (fun kv hkv => h kv (List.mem_cons_of_mem _ hkv))
      simpa [bucketOf, List.lookup_cons, hbe] using hrest

theorem bucketOf_initialDict (k : String) : bucketOf initialDict k = [] := by
  apply bucketOf_empty_buckets
  intro kv hkv
  simp only [initialDict, List.mem_cons, List.not_mem_nil, or_false] at hkv
  rcases hkv with rfl | rfl | rfl <;> rfl

theorem bucketOf_createStatusObject (ts : List Task) (k : String) :
    bucketOf (createStatusObject ts) k =
      sortByPriority (ts.filter (fun t => effStatus t = k)) := by
  unfold createStatusObject
  rw [bucketOf_sortBuckets,
    foldl_insertTask_bucket ts initialDict initialDict_keys_nodup k,
    bucketOf_initialDict]
  rfl

theorem createStatusObject_perm_aux (ts : List Task) :
    (dictTasks (createStatusObject ts)).Perm ts := by
  unfold createStatusObject
  have h1 := dictTasks_sortBuckets (ts.foldl insertTask initialDict)
  have h2 := foldl_insertTask_perm ts initialDict initialDict_keys_nodup
  simpa [dictTasks, initialDict] using h1.trans h2

theorem createStatusObject_keys_nodup (ts : List Task) :
    (dictKeys (createStatusObject ts)).Nodup := by
  unfold createStatusObject
  rw [dictKeys_sortBuckets]
  exact foldl_insertTask_nodup ts initialDict initialDict_keys_nodup

theorem createStatusObject_entries (ts : List Task) :
    ∀ kv ∈ createStatusObject ts, ∀ x ∈ kv.2, effStatus x = kv.1 := by
  unfold createStatusObject
  exact dict_entries_sortBuckets _
    (foldl_insertTask_entries ts initialDict initialDict_entries)

instance : IsTotal Task priorityLE :=
  ⟨fun a b => le_total (rankOf b) (rankOf a)⟩

instance : IsTrans Task priorityLE :=
  ⟨fun _ _ _ hab hbc => le_trans hbc hab⟩

theorem sorted_sortByPriority (l : List Task) :
    List.Sorted priorityLE (sortByPriority l) :=
  List.sorted_insertionSort priorityLE l

theorem sortByPriority_filter_rank (l : List Task) (r : Nat) :
    (sortByPriority l).filter (fun t => rankOf t = r) =
      l.filter (fun t => rankOf t = r) := by
  have hall : ∀ a ∈ l.filter (fun t => rankOf t = r),
      ∀ b ∈ l.filter (fun t => rankOf t = r), priorityLE a b := by
    intro a ha b hb
    have ha' : rankOf a = r := by simpa using (List.mem_filter.mp ha).2
    have hb' : rankOf b = r := by simpa using (List.mem_filter.mp hb).2
    show rankOf b ≤ rankOf a
    rw [ha', hb']
  have hsub : (l.filter (fun t => rankOf t = r)).Sublist (sortByPriority l) :=
    List.sublist_insertionSort (List.pairwise_of_forall_mem_list hall)
      (List.filter_sublist l)
  have hself : (l.filter (fun t => rankOf t = r)).filter (fun t => rankOf t = r) =
      l.filter (fun t => rankOf t = r) :=
    List.filter_eq_self.mpr (fun a ha => (List.mem_filter.mp ha).2)
  have hsub2 : (l.filter (fun t => rankOf t = r)).Sublist
      ((sortByPriority l).filter (fun t => rankOf t = r)) := by
    have h := hsub.filter (fun t => rankOf t = r)
    rwa [hself] at h
  have hperm : ((sortByPriority l).filter (fun t => rankOf t = r)).Perm
      (l.filter (fun t => rankOf t = r)) :=
    (List.perm_insertionSort priorityLE l).filter _
  exact (hsub2.eq_of_length hperm.length_eq.symm).symm

/-- C1: `createStatusObject` assigns every task to exactly one bucket — the
bucket keyed by its status, with a missing (empty) status defaulting to
"todo": the bucket under any key `k` is exactly the priority-sorted list of
the input tasks whose effective status is `k`, the keys are pairwise
distinct, every task stored under a key has that key as its effective
status, and the concatenation of all buckets is a permutation of the input
list — no task is lost and none is duplicated. -/
theorem createStatusObject_partitions (tasksArr : List Task) :
    (∀ k, bucketOf (createStatusObject tasksArr) k =
        sortByPriority (tasksArr.filter (fun t => effStatus t = k))) ∧
    (dictTasks (createStatusObject tasksArr)).Perm tasksArr ∧
    (dictKeys (createStatusObject tasksArr)).Nodup ∧
    (∀ kv ∈ createStatusObject tasksArr, ∀ t ∈ kv.2, effStatus t = kv.1) :=
  ⟨fun k => bucketOf_createStatusObject tasksArr k,
    createStatusObject_perm_aux tasksArr,
    createStatusObject_keys_nodup tasksArr,
    createStatusObject_entries tasksArr⟩

/-- C2: within every bucket produced by `createStatusObject`, each adjacent
pair is ordered by non-increasing priority rank (urgent 4, high 3, medium 2,
low 1, anything else 0), and the tasks of any fixed rank appear in exactly
the order in which they occur in the underlying input list (the sort is
stable). -/
theorem createStatusObject_bucket_sorted (tasksArr : List Task) (k : String) :
    (∀ i, i + 1 < (bucketOf (createStatusObject tasksArr) k).length →
        rankOf ((bucketOf (createStatusObject tasksArr) k).getD (i + 1) defaultTask) ≤
          rankOf ((bucketOf (createStatusObject tasksArr) k).getD i defaultTask)) ∧
    (∀ r, (bucketOf (createStatusObject tasksArr) k).filter (fun t => rankOf t = r) =
        (tasksArr.filter (fun t => effStatus t = k)).filter (fun t => rankOf t = r)) := by
  constructor
  · intro i hi
    have hs : List.Sorted priorityLE (bucketOf (createStatusObject tasksArr) k) := by
      rw [bucketOf_createStatusObject]
      exact sorted_sortByPriority _
    have hi' : i < (bucketOf (createStatusObject tasksArr) k).length :=
      Nat.lt_of_succ_lt hi
    rw [List.getD_eq_getElem _ _ hi, List.getD_eq_getElem _ _ hi']
    exact List.pairwise_iff_getElem.mp hs i (i + 1) hi' hi (Nat.lt_succ_self i)
  · intro r
    rw [bucketOf_createStatusObject]
    exact sortByPriority_filter_rank _ r

/-! ### Demo inputs for the partitioner witnesses -/

def demoTaskA : Task :=
  { defaultTask with id := "task-001", priority := "low", status := "todo" }

def demoTaskB : Task :=
  { defaultTask with id := "task-002", priority := "urgent", status := "todo" }

def demoTaskC : Task :=
  { defaultTask with id := "task-003", priority := "low", status := "done" }

def demoTaskD : Task :=
  { defaultTask with id := "task-004", priority := "medium", status := "" }

def demoTasks : List Task := [demoTaskA, demoTaskB, demoTaskC, demoTaskD]

/-- C1 witness: the partition of the four demo tasks — the "todo" bucket
equation, the membership-based status characterization at the "done" entry,
and the no-loss/no-duplication permutation. -/
theorem createStatusObject_partitions_witness :
    bucketOf (createStatusObject demoTasks) "todo" =
      sortByPriority (demoTasks.filter (fun t => effStatus t = "todo")) ∧
    effStatus demoTaskC = "done" ∧
    (dictTasks (createStatusObject demoTasks)).Perm demoTasks :=
  ⟨(createStatusObject_partitions demoTasks).1 "todo",
    (createStatusObject_partitions demoTasks).2.2.2 ("done", [demoTaskC])
      (by decide) demoTaskC (by decide),
    (createStatusObject_partitions demoTasks).2.1⟩

/-- C2 witness: in the demo "todo" bucket the first adjacent pair is ordered
by non-increasing rank, and the rank-1 tasks keep their input order. -/
theorem createStatusObject_bucket_sorted_witness :
    (0 + 1 < (bucketOf (createStatusObject demoTasks) "todo").length) ∧
    rankOf ((bucketOf (createStatusObject demoTasks) "todo").getD (0 + 1) defaultTask) ≤
      rankOf ((bucketOf (createStatusObject demoTasks) "todo").getD 0 defaultTask) ∧
    (bucketOf (createStatusObject demoTasks) "todo").filter (fun t => rankOf t = 1) =
      (demoTasks.filter (fun t => effStatus t = "todo")).filter (fun t => rankOf t = 1) :=
  ⟨by decide,
    (createStatusObject_bucket_sorted demoTasks "todo").1 0 (by decide),
    (createStatusObject_bucket_sorted demoTasks "todo").2 1⟩

end Join
